import Mathlib

set_option linter.unusedVariables false

/-!
Verification of the weatherAPI service (src/main.py) against its
natural-language specification.

The embedding models Python dicts and JSON payloads as a `Json` value
type, a provider adapter (`WeatherApi` base class) as a structure of its
overridable methods, the network as an abstract `NetResult` delivered to
one `fetch` invocation, and exceptions as `Option` failures: a Python
function that may raise becomes a Lean function returning `none` where
the original raises, and the try/except dispatch in `WeatherApi.fetch`
becomes a match on those outcomes.
-/

/-- JSON-like values: Python dicts, lists, strings, numbers and booleans.
Numbers are modelled as rationals (the code only copies numeric fields,
it never computes with them). -/
inductive Json where
  | null : Json
  | str (s : String) : Json
  | num (q : ℚ) : Json
  | bool (b : Bool) : Json
  | arr (xs : List Json) : Json
  | obj (fields : List (String × Json)) : Json

/-- Python `key in d` on a dict: does the object have this key. -/
def Json.hasKey (j : Json) (k : String) : Bool :=
  match j with
  | .obj fields => fields.any (fun f => f.1 == k)
  | _ => false

/-- Python `d[key]` on a dict: `none` models a raised KeyError (or a
TypeError when the value is not a dict). -/
def Json.get (j : Json) (k : String) : Option Json :=
  match j with
  | .obj fields => (fields.find? (fun f => f.1 == k)).map (fun f => f.2)
  | _ => none

/-- Python `xs[i]` on a list: `none` models a raised IndexError (or a
TypeError when the value is not a list). -/
def Json.idx (j : Json) (i : Nat) : Option Json :=
  match j with
  | .arr xs => xs.get? i
  | _ => none

/-- The keys of a dict, in insertion order. -/
def Json.keys (j : Json) : List String :=
  match j with
  | .obj fields => fields.map (fun f => f.1)
  | _ => []

/-- The dict `{"error": msg}` returned by every failure branch of
`WeatherApi.fetch`. -/
def errorDict (msg : String) : Json :=
  Json.obj [("error", Json.str msg)]

/-- The API keys loaded by `get_api_keys` from the environment;
`os.getenv` returns `None` when a variable is absent, hence `Option`. -/
structure ApiKeys where
  openweathermap : Option String
  visualcrossing : Option String

/-- Outcome of the single outbound HTTP call a `fetch` invocation may
attempt: a response with a status code and JSON body, an
`httpx.RequestError` (transport failure: timeout, DNS, connection
reset), or any other exception raised while performing the call. -/
inductive NetResult where
  | response (status : Nat) (body : Json) : NetResult
  | requestError (detail : String) : NetResult
  | otherFailure (detail : String) : NetResult

/-- The `WeatherApi` base class: an adapter instance is its api key plus
the three methods the subclasses override. `build_url` returns `none`
where the Python method raises; `parse_response` returns `none` where
the Python method raises (KeyError/IndexError/TypeError on a malformed
payload). `name` records which subclass the instance is (the same
identifier the subclass writes into the "source" field). -/
structure WeatherApi where
  name : String
  api_key : Option String
  build_url : String → Option String
  get_params : String → List (String × Option String)
  parse_response : Json → Option Json

/-- The method `WeatherApi.fetch` (src/main.py lines 45-60): evaluate
`build_url(city)` (an exception there is caught by the generic
`except Exception` handler before any network call happens), then issue
the single HTTP call; `raise_for_status` turns a non-2xx status into an
HTTPStatusError handled as `{"error": "API error: <code>"}`; an
`httpx.RequestError` is handled as `{"error": "Request error"}`; any
other exception — including one raised by `parse_response` — is handled
as `{"error": "Unknown error"}`; otherwise the parsed dict is returned. -/
def WeatherApi.fetch (api : WeatherApi) (city : String) (net : NetResult) : Json :=
  match api.build_url city with
  | none => errorDict "Unknown error"
  | some _ =>
    match net with
    | .response status body =>
      if 200 ≤ status ∧ status < 300 then
        match api.parse_response body with
        | some data => data
        | none => errorDict "Unknown error"
      else errorDict ("API error: " ++ toString status)
    | .requestError _ => errorDict "Request error"
    | .otherFailure _ => errorDict "Unknown error"

/-- Number of outbound HTTP calls one `fetch` invocation attempts:
`client.get(self.build_url(city), ...)` evaluates `build_url` first, so
when `build_url` raises, no call is attempted at all; otherwise exactly
one call is made (there is no retry logic). -/
def WeatherApi.fetch_network_calls (api : WeatherApi) (city : String) : Nat :=
  match api.build_url city with
  | none => 0
  | some _ => 1

def VisualCrossingAPI.BASE_URL : String :=
  "https://weather.visualcrossing.com/VisualCrossingWebServices/rest/services/timeline"

/-- The method `VisualCrossingAPI.build_url` (src/main.py line 87). The
source is the f-string whose interpolated expression divides the
`BASE_URL` string by the set literal containing `city`; `str` has no
division operator, so evaluating it raises a TypeError for every city.
`none` models that unconditional raise. -/
def VisualCrossingAPI.build_url (city : String) : Option String :=
  none

/-- The method `VisualCrossingAPI.get_params` (src/main.py lines 90-95). -/
def VisualCrossingAPI.get_params (api_key : Option String) (city : String) :
    List (String × Option String) :=
  [("key", api_key), ("unitGroup", some "metric"), ("include", some "current")]

/-- The method `VisualCrossingAPI.parse_response` (src/main.py lines
97-104): each lookup raises (here: `none`) when the key is absent or the
value is not a dict, in the evaluation order of the dict literal. -/
def VisualCrossingAPI.parse_response (response : Json) : Option Json := do
  let cc ← response.get "currentConditions"
  let temp ← cc.get "temp"
  let conditions ← cc.get "conditions"
  let humidity ← cc.get "humidity"
  let feelslike ← cc.get "feelslike"
  some (Json.obj [("source", Json.str "VisualCrossing"),
                  ("temperature", temp),
                  ("description", conditions),
                  ("humidity", humidity),
                  ("feels_like", feelslike)])

/-- The class `VisualCrossingAPI` instantiated with an api key. -/
def VisualCrossingAPI (api_key : Option String) : WeatherApi :=
  { name := "VisualCrossing"
    api_key := api_key
    build_url := VisualCrossingAPI.build_url
    get_params := VisualCrossingAPI.get_params api_key
    parse_response := VisualCrossingAPI.parse_response }

def OpenWeatherAPI.BASE_URL : String :=
  "http://api.openweathermap.org/data/2.5/weather"

/-- The method `OpenWeatherAPI.build_url` (src/main.py line 114): the
constant base URL. -/
def OpenWeatherAPI.build_url (city : String) : Option String :=
  some OpenWeatherAPI.BASE_URL

/-- The method `OpenWeatherAPI.get_params` (src/main.py lines 117-122). -/
def OpenWeatherAPI.get_params (api_key : Option String) (city : String) :
    List (String × Option String) :=
  [("q", some city), ("appid", api_key), ("units", some "metric")]

/-- The method `OpenWeatherAPI.parse_response` (src/main.py lines
125-132): looks up `main.temp`, `weather[0].description`,
`main.humidity`, `main.feels_like` in the evaluation order of the dict
literal; any missing key or wrong shape raises (here: `none`). -/
def OpenWeatherAPI.parse_response (response : Json) : Option Json := do
  let main ← response.get "main"
  let temp ← main.get "temp"
  let weather ← response.get "weather"
  let w0 ← weather.idx 0
  let description ← w0.get "description"
  let main2 ← response.get "main"
  let humidity ← main2.get "humidity"
  let main3 ← response.get "main"
  let feels_like ← main3.get "feels_like"
  some (Json.obj [("source", Json.str "OpenWeatherMap"),
                  ("temperature", temp),
                  ("description", description),
                  ("humidity", humidity),
                  ("feels_like", feels_like)])

/-- The class `OpenWeatherAPI` instantiated with an api key. -/
def OpenWeatherAPI (api_key : Option String) : WeatherApi :=
  { name := "OpenWeatherMap"
    api_key := api_key
    build_url := OpenWeatherAPI.build_url
    get_params := OpenWeatherAPI.get_params api_key
    parse_response := OpenWeatherAPI.parse_response }

/-- The `sources` list built inside `get_weather` (src/main.py lines
139-142): VisualCrossing first, OpenWeather second, for every key
configuration. -/
def get_weather_sources (api_keys : ApiKeys) : List WeatherApi :=
  [VisualCrossingAPI api_keys.visualcrossing,
   OpenWeatherAPI api_keys.openweathermap]

/-- The names of the providers `get_weather` will try, in order. -/
def provider_order (api_keys : ApiKeys) : List String :=
  (get_weather_sources api_keys).map (fun s => s.name)

/-- The aggregate failure dict returned when every source fails
(src/main.py line 149). -/
def all_sources_failed : Json :=
  errorDict "unable fetch weather data from any source."

/-- The `for source in sources` loop of `get_weather` (src/main.py lines
144-147), instrumented with the number of `fetch` invocations performed:
fetch the next source (each paired with the network outcome its single
call would observe); if the returned dict has no "error" key, return it
without touching the remaining sources; otherwise continue; when the
sources are exhausted, return the aggregate failure. -/
def get_weather_loop (city : String) :
    List (WeatherApi × NetResult) → Json × Nat
  | [] => (all_sources_failed, 0)
  | (source, net) :: rest =>
    let data := source.fetch city net
    if data.hasKey "error" then
      let r := get_weather_loop city rest
      (r.1, r.2 + 1)
    else (data, 1)

/-- The function `get_weather` (src/main.py lines 135-149): try the
configured sources in order and return the first dict without an
"error" key, or the aggregate failure. `net_vc` and `net_ow` are the
network outcomes the two providers' calls would observe. -/
def get_weather (api_keys : ApiKeys) (city : String)
    (net_vc net_ow : NetResult) : Json :=
  (get_weather_loop city
    (List.zip (get_weather_sources api_keys) [net_vc, net_ow])).1

/-- Number of provider `fetch` invocations one `get_weather` call makes. -/
def get_weather_fetch_count (api_keys : ApiKeys) (city : String)
    (net_vc net_ow : NetResult) : Nat :=
  (get_weather_loop city
    (List.zip (get_weather_sources api_keys) [net_vc, net_ow])).2

/-- The spec's error taxonomy (section 7): Transport, UpstreamStatus(code),
MalformedResponse, Internal, AllProvidersFailed. -/
inductive ErrorKind where
  | Transport : ErrorKind
  | UpstreamStatus (code : Nat) : ErrorKind
  | MalformedResponse : ErrorKind
  | Internal : ErrorKind
  | AllProvidersFailed : ErrorKind
deriving DecidableEq

/-- Modelled from the spec: sections 4.1 and 7 associate each failure dict
the code produces with an ErrorKind — on non-2xx status the code returns
`{"error": "API error: <code>"}` (UpstreamStatus(code)); on transport
failure `{"error": "Request error"}` (Transport); on any other unexpected
exception during the call or parse `{"error": "Unknown error"}`
(Internal); the orchestrator aggregate message is AllProvidersFailed.
The code produces no dict specific to a parse/schema failure, so no
value maps to MalformedResponse. -/
def error_kind_of (j : Json) : Option ErrorKind :=
  match j.get "error" with
  | some (Json.str m) =>
    if m = "Request error" then some ErrorKind.Transport
    else if m = "Unknown error" then some ErrorKind.Internal
    else if m = "unable fetch weather data from any source." then
      some ErrorKind.AllProvidersFailed
    else if m.startsWith "API error: " then
      (m.drop 11).toNat?.map ErrorKind.UpstreamStatus
    else none
  | _ => none

/-- TTL of the response cache: the decorator argument
`@cache(expire=300)` on the weather endpoint (src/main.py line 158). -/
def cache_expire : Nat := 300

/-- A cache entry for one city key: the cached response body and the
instant it expires (write time + TTL). -/
structure CacheEntry where
  value : Json
  expires_at : Nat

/-- Modelled from the spec: the Response Cache `getOrCompute` contract
(section 4.3) realised by the `fastapi_cache` decorator, whose machinery
is outside this repository; only the TTL constant 300 comes from
src/main.py. Given the value the orchestrator would compute, the current
instant and the state of the entry for this key: a live (non-expired)
entry is returned as is without invoking the orchestrator; otherwise the
computed value is stored with a fresh expiry of now + TTL — the same TTL
whatever the value is — and returned. Result: (response body, new entry
state, whether the orchestrator was invoked). -/
def cache_get_or_compute (compute : Json) (now : Nat)
    (entry : Option CacheEntry) : Json × Option CacheEntry × Bool :=
  match entry with
  | some e =>
    if now < e.expires_at then (e.value, some e, false)
    else (compute, some ⟨compute, now + cache_expire⟩, true)
  | none => (compute, some ⟨compute, now + cache_expire⟩, true)

/-- A well-formed OpenWeatherMap payload, used as a concrete witness. -/
def ow_sample_payload : Json :=
  Json.obj [("main", Json.obj [("temp", Json.num 10),
                               ("humidity", Json.num 50),
                               ("feels_like", Json.num 9)]),
            ("weather", Json.arr [Json.obj [("description", Json.str "mist")]])]

/-- A payload missing every expected key (in particular missing
`currentConditions` and `main`). -/
def malformed_payload : Json :=
  Json.obj [("unexpected", Json.str "shape")]

/-- The well-formed VisualCrossing payload of the spec's round-trip
property. -/
def vc_round_trip_payload : Json :=
  Json.obj [("currentConditions",
             Json.obj [("temp", Json.num 21.5),
                       ("conditions", Json.str "Clear"),
                       ("humidity", Json.num 40),
                       ("feelslike", Json.num 20.9)])]

theorem vc_fetch_unknown (api_key : Option String) (city : String) (net : NetResult) :
    (VisualCrossingAPI api_key).fetch city net = errorDict "Unknown error" := rfl

theorem vc_parse_success_shape (body data : Json)
    (h : VisualCrossingAPI.parse_response body = some data) :
    data.keys = ["source", "temperature", "description", "humidity", "feels_like"]
    ∧ data.hasKey "error" = false := by
  simp [VisualCrossingAPI.parse_response, Option.bind_eq_some] at h
  obtain ⟨cc, hcc, temp, ht, c, hc, hu, hhu, fl, hfl, hdata⟩ := h
  subst hdata
  exact ⟨rfl, rfl⟩

theorem ow_parse_success_shape (body data : Json)
    (h : OpenWeatherAPI.parse_response body = some data) :
    data.keys = ["source", "temperature", "description", "humidity", "feels_like"]
    ∧ data.hasKey "error" = false := by
  simp [OpenWeatherAPI.parse_response, Option.bind_eq_some] at h
  obtain ⟨m, hm, t, ht, w, hw, w0, hw0, d, hd, m2, hm2, hu, hhu, m3, hm3, fl, hfl, hdata⟩ := h
  subst hdata
  exact ⟨rfl, rfl⟩

theorem ow_fetch_success_eq (api_key : Option String) (city : String)
    (status : Nat) (body data : Json)
    (hs : 200 ≤ status ∧ status < 300)
    (hp : OpenWeatherAPI.parse_response body = some data) :
    (OpenWeatherAPI api_key).fetch city (NetResult.response status body) = data := by
  simp [WeatherApi.fetch, OpenWeatherAPI, OpenWeatherAPI.build_url, hs, hp]

/-- C1: for every city, if the first provider's fetch returns a success
(a dict without an "error" key), the orchestration loop of `get_weather`
returns exactly that dict and performs exactly one fetch invocation, so
the remaining providers are never invoked. Stated over the loop with an
arbitrary head provider: in the shipped configuration the first provider
is VisualCrossing, whose fetch can never succeed (see C4), so the
concrete instance of the hypothesis would be vacuous. -/
theorem c1_first_provider_success_short_circuits
    (city : String) (p : WeatherApi) (net : NetResult)
    (rest : List (WeatherApi × NetResult))
    (h : (p.fetch city net).hasKey "error" = false) :
    get_weather_loop city ((p, net) :: rest) = (p.fetch city net, 1) := by
  simp [get_weather_loop, h]

theorem c1_witness :
    ((OpenWeatherAPI (some "ow-key")).fetch "Paris"
        (NetResult.response 200 ow_sample_payload)).hasKey "error" = false
    ∧ get_weather_loop "Paris"
        [(OpenWeatherAPI (some "ow-key"), NetResult.response 200 ow_sample_payload),
         (VisualCrossingAPI (some "vc-key"), NetResult.requestError "down")]
      = ((OpenWeatherAPI (some "ow-key")).fetch "Paris"
          (NetResult.response 200 ow_sample_payload), 1) :=
  ⟨rfl, c1_first_provider_success_short_circuits "Paris" _ _ _ rfl⟩

/-- C2: for every city, key configuration and pair of network outcomes,
if both providers' fetches return a failure (a dict with an "error"
key), `get_weather` returns exactly
`{"error": "unable fetch weather data from any source."}` — a constant
value, so no individual provider's error detail can appear in it. -/
theorem c2_all_providers_fail_aggregate_error
    (api_keys : ApiKeys) (city : String) (net_vc net_ow : NetResult)
    (h1 : ((VisualCrossingAPI api_keys.visualcrossing).fetch city net_vc).hasKey "error" = true)
    (h2 : ((OpenWeatherAPI api_keys.openweathermap).fetch city net_ow).hasKey "error" = true) :
    get_weather api_keys city net_vc net_ow
      = Json.obj [("error", Json.str "unable fetch weather data from any source.")] := by
  simp [get_weather, get_weather_sources, get_weather_loop, h1, h2,
        all_sources_failed, errorDict]

theorem c2_witness :
    ((VisualCrossingAPI (some "vc-key")).fetch "Paris"
        (NetResult.requestError "down")).hasKey "error" = true
    ∧ ((OpenWeatherAPI (some "ow-key")).fetch "Paris"
        (NetResult.otherFailure "boom")).hasKey "error" = true
    ∧ get_weather ⟨some "ow-key", some "vc-key"⟩ "Paris"
        (NetResult.requestError "down") (NetResult.otherFailure "boom")
      = Json.obj [("error", Json.str "unable fetch weather data from any source.")] :=
  ⟨rfl, rfl,
   c2_all_providers_fail_aggregate_error ⟨some "ow-key", some "vc-key"⟩ "Paris" _ _ rfl rfl⟩

/-- C3: for every city, key configuration and pair of network outcomes,
if the first provider's fetch fails (of any kind) and the second
provider's fetch succeeds, `get_weather` returns exactly the second
provider's normalized dict. -/
theorem c3_fallback_to_second_provider
    (api_keys : ApiKeys) (city : String) (net_vc net_ow : NetResult)
    (h1 : ((VisualCrossingAPI api_keys.visualcrossing).fetch city net_vc).hasKey "error" = true)
    (h2 : ((OpenWeatherAPI api_keys.openweathermap).fetch city net_ow).hasKey "error" = false) :
    get_weather api_keys city net_vc net_ow
      = (OpenWeatherAPI api_keys.openweathermap).fetch city net_ow := by
  simp [get_weather, get_weather_sources, get_weather_loop, h1, h2]

theorem c3_witness :
    ((VisualCrossingAPI (some "vc-key")).fetch "Paris"
        (NetResult.requestError "down")).hasKey "error" = true
    ∧ ((OpenWeatherAPI (some "ow-key")).fetch "Paris"
        (NetResult.response 200 ow_sample_payload)).hasKey "error" = false
    ∧ get_weather ⟨some "ow-key", some "vc-key"⟩ "Paris"
        (NetResult.requestError "down") (NetResult.response 200 ow_sample_payload)
      = (OpenWeatherAPI (some "ow-key")).fetch "Paris"
          (NetResult.response 200 ow_sample_payload) :=
  ⟨rfl, rfl,
   c3_fallback_to_second_provider ⟨some "ow-key", some "vc-key"⟩ "Paris" _ _ rfl rfl⟩

/-- C4: for every city, api key and network outcome,
`VisualCrossingAPI.build_url` raises (modelled as `none`, since the
f-string divides the base-URL string by a set), so the provider's fetch
attempts no outbound call, never reaches a successful parse, and always
yields the failure dict `{"error": "Unknown error"}`. -/
theorem c4_visualcrossing_always_fails
    (api_key : Option String) (city : String) (net : NetResult) :
    VisualCrossingAPI.build_url city = none
    ∧ (VisualCrossingAPI api_key).fetch city net = errorDict "Unknown error"
    ∧ ((VisualCrossingAPI api_key).fetch city net).hasKey "error" = true
    ∧ (VisualCrossingAPI api_key).fetch_network_calls city = 0 :=
  ⟨rfl, rfl, rfl, rfl⟩

/-- C5, counterexample: feeding a 200 response whose payload misses the
expected keys to the OpenWeather fetch yields `{"error": "Unknown
error"}` — the very same value the generic unexpected-exception handler
produces, classified by the spec's taxonomy as Internal, not as a
distinct MalformedResponse. -/
theorem c5_counterexample :
    OpenWeatherAPI.parse_response malformed_payload = none
    ∧ (OpenWeatherAPI (some "ow-key")).fetch "London"
        (NetResult.response 200 malformed_payload) = errorDict "Unknown error"
    ∧ (OpenWeatherAPI (some "ow-key")).fetch "London"
        (NetResult.otherFailure "unexpected exception") = errorDict "Unknown error"
    ∧ error_kind_of ((OpenWeatherAPI (some "ow-key")).fetch "London"
        (NetResult.response 200 malformed_payload)) = some ErrorKind.Internal
    ∧ some ErrorKind.Internal ≠ some ErrorKind.MalformedResponse :=
  ⟨rfl, rfl, rfl, by decide, by decide⟩

/-- C5 as amended: for every payload on which the parse raises (missing
or wrongly shaped keys) delivered with a 2xx status, the provider's
fetch returns the failure value `{"error": "Unknown error"}` — the
generic Internal outcome, since the code has no parse-specific handler —
and never lets the exception escape (the fetch embedding is total and
the result is a failure dict). The VisualCrossing fetch returns the same
value without ever reaching its parse. -/
theorem c5_malformed_payload_internal_failure
    (api_key : Option String) (city : String) (status : Nat) (body : Json)
    (hs : 200 ≤ status ∧ status < 300)
    (hp : OpenWeatherAPI.parse_response body = none) :
    (OpenWeatherAPI api_key).fetch city (NetResult.response status body)
      = errorDict "Unknown error"
    ∧ ((OpenWeatherAPI api_key).fetch city (NetResult.response status body)).hasKey
        "error" = true
    ∧ (VisualCrossingAPI api_key).fetch city (NetResult.response status body)
      = errorDict "Unknown error" := by
  refine ⟨?_, ?_, rfl⟩ <;>
    simp [WeatherApi.fetch, OpenWeatherAPI, OpenWeatherAPI.build_url, hs, hp,
          errorDict, Json.hasKey]

theorem c5_witness :
    (200 ≤ 200 ∧ 200 < 300)
    ∧ OpenWeatherAPI.parse_response malformed_payload = none
    ∧ (OpenWeatherAPI (some "ow-key")).fetch "London"
        (NetResult.response 200 malformed_payload) = errorDict "Unknown error" :=
  ⟨by decide, rfl,
   (c5_malformed_payload_internal_failure (some "ow-key") "London" 200
     malformed_payload (by decide) rfl).1⟩

/-- C6, counterexample: a VisualCrossing fetch invocation attempts zero
outbound calls, not exactly one — `build_url` raises before the HTTP
request is issued. -/
theorem c6_counterexample :
    (VisualCrossingAPI (some "vc-key")).fetch_network_calls "London" = 0
    ∧ (0 : Nat) ≠ 1 :=
  ⟨rfl, by decide⟩

/-- C6 as amended: for every adapter and city, when `build_url` succeeds
the fetch classifies its outcome into exactly one of — the parsed dict
on a 2xx response with a well-formed payload; `{"error": "API error:
<code>"}` on a non-2xx status; `{"error": "Request error"}` on a
transport failure; `{"error": "Unknown error"}` on any other unexpected
exception during the call or the parse — and attempts exactly one
outbound call; when `build_url` raises (as VisualCrossing's always
does), the fetch returns `{"error": "Unknown error"}` and attempts zero
outbound calls. In every case at most one call is attempted: no retries. -/
theorem c6_fetch_classification (api : WeatherApi) (city : String) :
    ((∃ u, api.build_url city = some u) →
      (∀ status body data, 200 ≤ status → status < 300 →
          api.parse_response body = some data →
          api.fetch city (NetResult.response status body) = data)
      ∧ (∀ status body, ¬(200 ≤ status ∧ status < 300) →
          api.fetch city (NetResult.response status body)
            = errorDict ("API error: " ++ toString status))
      ∧ (∀ detail, api.fetch city (NetResult.requestError detail)
          = errorDict "Request error")
      ∧ (∀ detail, api.fetch city (NetResult.otherFailure detail)
          = errorDict "Unknown error")
      ∧ (∀ status body, 200 ≤ status → status < 300 →
          api.parse_response body = none →
          api.fetch city (NetResult.response status body)
            = errorDict "Unknown error")
      ∧ api.fetch_network_calls city = 1)
    ∧ (api.build_url city = none →
      (∀ net, api.fetch city net = errorDict "Unknown error")
      ∧ api.fetch_network_calls city = 0)
    ∧ api.fetch_network_calls city ≤ 1 := by
  refine ⟨?_, ?_, ?_⟩
  · rintro ⟨u, hb⟩
    refine ⟨?_, ?_, ?_, ?_, ?_, ?_⟩
    · intro status body data h1 h2 hp
      simp [WeatherApi.fetch, hb, h1, h2, hp]
    · intro status body h
      simp [WeatherApi.fetch, hb, h]
    · intro detail; simp [WeatherApi.fetch, hb]
    · intro detail; simp [WeatherApi.fetch, hb]
    · intro status body h1 h2 hp
      simp [WeatherApi.fetch, hb, h1, h2, hp]
    · simp [WeatherApi.fetch_network_calls, hb]
  · intro hb
    refine ⟨?_, ?_⟩
    · intro net; simp [WeatherApi.fetch, hb]
    · simp [WeatherApi.fetch_network_calls, hb]
  · unfold WeatherApi.fetch_network_calls
    cases api.build_url city <;> simp

theorem c6_witness :
    (∃ u, (OpenWeatherAPI (some "ow-key")).build_url "Paris" = some u)
    ∧ (OpenWeatherAPI (some "ow-key")).fetch "Paris" (NetResult.requestError "timeout")
        = errorDict "Request error"
    ∧ (OpenWeatherAPI (some "ow-key")).fetch_network_calls "Paris" = 1
    ∧ (VisualCrossingAPI (some "vc-key")).build_url "Paris" = none
    ∧ (VisualCrossingAPI (some "vc-key")).fetch "Paris" (NetResult.otherFailure "x")
        = errorDict "Unknown error"
    ∧ (VisualCrossingAPI (some "vc-key")).fetch_network_calls "Paris" = 0 :=
  ⟨⟨OpenWeatherAPI.BASE_URL, rfl⟩,
   ((c6_fetch_classification (OpenWeatherAPI (some "ow-key")) "Paris").1
     ⟨OpenWeatherAPI.BASE_URL, rfl⟩).2.2.1 "timeout",
   ((c6_fetch_classification (OpenWeatherAPI (some "ow-key")) "Paris").1
     ⟨OpenWeatherAPI.BASE_URL, rfl⟩).2.2.2.2.2,
   rfl,
   ((c6_fetch_classification (VisualCrossingAPI (some "vc-key")) "Paris").2.1 rfl).1
     (NetResult.otherFailure "x"),
   ((c6_fetch_classification (VisualCrossingAPI (some "vc-key")) "Paris").2.1 rfl).2⟩

/-- C7: the VisualCrossing parser maps the spec's well-formed payload
`{"currentConditions": {"temp": 21.5, "conditions": "Clear", "humidity":
40, "feelslike": 20.9}}` to exactly `{"source": "VisualCrossing",
"temperature": 21.5, "description": "Clear", "humidity": 40,
"feels_like": 20.9}`. -/
theorem c7_visualcrossing_round_trip :
    VisualCrossingAPI.parse_response vc_round_trip_payload
      = some (Json.obj [("source", Json.str "VisualCrossing"),
                        ("temperature", Json.num 21.5),
                        ("description", Json.str "Clear"),
                        ("humidity", Json.num 40),
                        ("feels_like", Json.num 20.9)]) := rfl

/-- C8, counterexample: the provider order is not an overridable
configuration property of this code — no choice of the configuration
input (the api keys, the only configuration `get_weather` consumes) can
change the order in which `get_weather` tries the providers. -/
theorem c8_counterexample :
    ¬ ∃ k1 k2 : ApiKeys, provider_order k1 ≠ provider_order k2 := by
  intro h
  obtain ⟨k1, k2, h⟩ := h
  exact h rfl

/-- C8 as amended: for every key configuration, `get_weather` builds the
source list in the fixed order VisualCrossing first, OpenWeather second;
the order is hardcoded inside `get_weather`, identical under every
configuration. -/
theorem c8_provider_order_fixed (api_keys : ApiKeys) :
    provider_order api_keys = ["VisualCrossing", "OpenWeatherMap"]
    ∧ get_weather_sources api_keys
        = [VisualCrossingAPI api_keys.visualcrossing,
           OpenWeatherAPI api_keys.openweathermap] :=
  ⟨rfl, rfl⟩

/-- C9: for every pair of cached values and instants, a first call at t1
on an empty entry invokes the orchestrator and stores the value with
expiry t1 + 300 (the same TTL whatever the value — success or aggregate
failure alike); a second call at t2 within the TTL window returns the
cached value without invoking the orchestrator; a call at t3 at or after
expiry invokes it again. -/
theorem c9_cache_ttl_idempotence (v1 v2 v3 : Json) (t1 t2 t3 : Nat)
    (h1 : t1 ≤ t2) (h2 : t2 < t1 + cache_expire) (h3 : t1 + cache_expire ≤ t3) :
    (cache_get_or_compute v1 t1 none).2.2 = true
    ∧ (cache_get_or_compute v1 t1 none).2.1 = some ⟨v1, t1 + cache_expire⟩
    ∧ (cache_get_or_compute v2 t2 (cache_get_or_compute v1 t1 none).2.1).2.2 = false
    ∧ (cache_get_or_compute v2 t2 (cache_get_or_compute v1 t1 none).2.1).1 = v1
    ∧ (cache_get_or_compute v3 t3
        (cache_get_or_compute v2 t2 (cache_get_or_compute v1 t1 none).2.1).2.1).2.2 = true
    ∧ (cache_get_or_compute v3 t3
        (cache_get_or_compute v2 t2 (cache_get_or_compute v1 t1 none).2.1).2.1).1 = v3 := by
  simp [cache_get_or_compute, h2, Nat.not_lt.mpr h3]

theorem c9_witness :
    (0 ≤ 299 ∧ 299 < 0 + cache_expire ∧ 0 + cache_expire ≤ 300)
    ∧ (cache_get_or_compute all_sources_failed 0 none).2.2 = true
    ∧ (cache_get_or_compute Json.null 299
        (cache_get_or_compute all_sources_failed 0 none).2.1).2.2 = false
    ∧ (cache_get_or_compute Json.null 299
        (cache_get_or_compute all_sources_failed 0 none).2.1).1 = all_sources_failed
    ∧ (cache_get_or_compute Json.null 300
        (cache_get_or_compute Json.null 299
          (cache_get_or_compute all_sources_failed 0 none).2.1).2.1).2.2 = true :=
  ⟨by decide,
   (c9_cache_ttl_idempotence all_sources_failed Json.null Json.null 0 299 300
     (by decide) (by decide) (by decide)).1,
   (c9_cache_ttl_idempotence all_sources_failed Json.null Json.null 0 299 300
     (by decide) (by decide) (by decide)).2.2.1,
   (c9_cache_ttl_idempotence all_sources_failed Json.null Json.null 0 299 300
     (by decide) (by decide) (by decide)).2.2.2.1,
   (c9_cache_ttl_idempotence all_sources_failed Json.null Json.null 0 299 300
     (by decide) (by decide) (by decide)).2.2.2.2.1⟩

/-- C10: every successful parse of either adapter yields a dict whose
keys are exactly [source, temperature, description, humidity,
feels_like] — in particular never "error" — and for every city, key and
network outcome, a fetch result lacks the "error" key exactly when it is
a successful parse of some payload; hence the test `"error" not in data`
in `get_weather` exactly distinguishes provider success from provider
failure. -/
theorem c10_success_iff_no_error_key
    (api_key : Option String) (city : String) (net : NetResult) :
    (∀ body data, VisualCrossingAPI.parse_response body = some data →
        data.keys = ["source", "temperature", "description", "humidity", "feels_like"]
        ∧ data.hasKey "error" = false)
    ∧ (∀ body data, OpenWeatherAPI.parse_response body = some data →
        data.keys = ["source", "temperature", "description", "humidity", "feels_like"]
        ∧ data.hasKey "error" = false)
    ∧ (((VisualCrossingAPI api_key).fetch city net).hasKey "error" = false
        ↔ ∃ body, VisualCrossingAPI.parse_response body
            = some ((VisualCrossingAPI api_key).fetch city net))
    ∧ (((OpenWeatherAPI api_key).fetch city net).hasKey "error" = false
        ↔ ∃ body, OpenWeatherAPI.parse_response body
            = some ((OpenWeatherAPI api_key).fetch city net)) := by
  refine ⟨vc_parse_success_shape, ow_parse_success_shape, ?_, ?_⟩
  · constructor
    · intro h
      rw [vc_fetch_unknown] at h
      simp [errorDict, Json.hasKey] at h
    · rintro ⟨body, hb⟩
      exact (vc_parse_success_shape body _ hb).2
  · constructor
    · intro h
      cases net with
      | response status body =>
        by_cases hs : 200 ≤ status ∧ status < 300
        · cases hp : OpenWeatherAPI.parse_response body with
          | some data =>
            exact ⟨body, by rw [ow_fetch_success_eq api_key city status body data hs hp, hp]⟩
          | none =>
            have hfe : (OpenWeatherAPI api_key).fetch city (NetResult.response status body)
                = errorDict "Unknown error" := by
              simp [WeatherApi.fetch, OpenWeatherAPI, OpenWeatherAPI.build_url, hs, hp]
            rw [hfe] at h
            simp [errorDict, Json.hasKey] at h
        · have hfe : (OpenWeatherAPI api_key).fetch city (NetResult.response status body)
              = errorDict ("API error: " ++ toString status) := by
            simp [WeatherApi.fetch, OpenWeatherAPI, OpenWeatherAPI.build_url, hs]
          rw [hfe] at h
          simp [errorDict, Json.hasKey] at h
      | requestError detail =>
        simp [WeatherApi.fetch, OpenWeatherAPI, OpenWeatherAPI.build_url,
              errorDict, Json.hasKey] at h
      | otherFailure detail =>
        simp [WeatherApi.fetch, OpenWeatherAPI, OpenWeatherAPI.build_url,
              errorDict, Json.hasKey] at h
    · rintro ⟨body, hb⟩
      exact (ow_parse_success_shape body _ hb).2

theorem c10_witness :
    OpenWeatherAPI.parse_response ow_sample_payload
      = some (Json.obj [("source", Json.str "OpenWeatherMap"),
                        ("temperature", Json.num 10),
                        ("description", Json.str "mist"),
                        ("humidity", Json.num 50),
                        ("feels_like", Json.num 9)])
    ∧ (Json.obj [("source", Json.str "OpenWeatherMap"),
                 ("temperature", Json.num 10),
                 ("description", Json.str "mist"),
                 ("humidity", Json.num 50),
                 ("feels_like", Json.num 9)]).keys
        = ["source", "temperature", "description", "humidity", "feels_like"]
    ∧ (Json.obj [("source", Json.str "OpenWeatherMap"),
                 ("temperature", Json.num 10),
                 ("description", Json.str "mist"),
                 ("humidity", Json.num 50),
                 ("feels_like", Json.num 9)]).hasKey "error" = false :=
  ⟨rfl,
   ((c10_success_iff_no_error_key (some "ow-key") "Paris"
       (NetResult.requestError "down")).2.1 ow_sample_payload _ rfl).1,
   ((c10_success_iff_no_error_key (some "ow-key") "Paris"
       (NetResult.requestError "down")).2.1 ow_sample_payload _ rfl).2⟩
